import Mathlib

/-!
Shallow embedding of the Lynch-style screening engine
(`src/lynch/screener.py` together with the data model in `src/models.py`).

Numeric metrics are modelled as `ℚ` (the source never produces NaN and all
thresholds are exact decimals).  Optional metrics are `Option ℚ`.  The
`message` field of `ReasonCode` is pure string formatting of the numeric
values already carried in `value`/`threshold` and is omitted; every other
field is kept.  Python's `round` (round half to even) is modelled by
`roundEven` below.
-/

namespace Screener

/-- `models.Fundamentals`: immutable per-ticker snapshot. -/
structure Fundamentals where
  ticker : String
  name : String
  price : Option ℚ
  market_cap : Option ℚ
  pe_ratio : Option ℚ
  revenue_cagr_5y : Option ℚ
  eps_growth_5y : Option ℚ
  operating_margin : Option ℚ
  fcf_margin : Option ℚ
  roe : Option ℚ
  debt_to_equity : Option ℚ
  net_debt_to_ebitda : Option ℚ
  interest_coverage : Option ℚ
  current_ratio : Option ℚ
  shares_outstanding : Option ℚ
  free_cash_flow : Option ℚ

/-- `models.ReasonCode` (the `message` field, pure presentation, is omitted). -/
structure ReasonCode where
  level : String
  code : String
  value : Option ℚ
  threshold : Option ℚ
deriving DecidableEq

/-- `screener.RiskProfile`. -/
structure RiskProfile where
  name : String
  max_debt_to_equity : ℚ
  min_interest_coverage : ℚ
  min_current_ratio : ℚ
  min_fcf_margin : ℚ
  growth_floor : ℚ

/-- `screener.ScoringConfig`. -/
structure ScoringConfig where
  value_weight : ℚ
  growth_weight : ℚ
  quality_weight : ℚ
  balance_weight : ℚ
  peg_attractive : ℚ
  peg_fair : ℚ
  peg_rich : ℚ
  growth_strong : ℚ
  growth_healthy : ℚ
  growth_moderate : ℚ
  op_margin_strong : ℚ
  op_margin_ok : ℚ
  fcf_margin_strong : ℚ
  fcf_margin_ok : ℚ
  roe_strong : ℚ
  roe_ok : ℚ
  debt_light : ℚ
  net_debt_low : ℚ
  net_debt_ok : ℚ
  interest_strong : ℚ
  current_strong : ℚ

/-- The dataclass field defaults of `ScoringConfig` (`DEFAULT_CONFIG = ScoringConfig()`). -/
def DEFAULT_CONFIG : ScoringConfig :=
  { value_weight := 30
    growth_weight := 25
    quality_weight := 25
    balance_weight := 20
    peg_attractive := 1.0
    peg_fair := 1.5
    peg_rich := 2.0
    growth_strong := 20.0
    growth_healthy := 12.0
    growth_moderate := 8.0
    op_margin_strong := 20.0
    op_margin_ok := 10.0
    fcf_margin_strong := 15.0
    fcf_margin_ok := 5.0
    roe_strong := 20.0
    roe_ok := 10.0
    debt_light := 0.5
    net_debt_low := 1.0
    net_debt_ok := 3.0
    interest_strong := 8.0
    current_strong := 1.5 }

/-- The `"conservative"` entry of the `PROFILES` registry. -/
def conservativeProfile : RiskProfile :=
  { name := "conservative", max_debt_to_equity := 1.0, min_interest_coverage := 4.0
    min_current_ratio := 1.2, min_fcf_margin := 2.0, growth_floor := 6.0 }

/-- The `"balanced"` entry of the `PROFILES` registry. -/
def balancedProfile : RiskProfile :=
  { name := "balanced", max_debt_to_equity := 1.5, min_interest_coverage := 3.0
    min_current_ratio := 1.0, min_fcf_margin := 1.0, growth_floor := 4.0 }

/-- The `"aggressive"` entry of the `PROFILES` registry. -/
def aggressiveProfile : RiskProfile :=
  { name := "aggressive", max_debt_to_equity := 2.0, min_interest_coverage := 2.0
    min_current_ratio := 0.8, min_fcf_margin := 0.0, growth_floor := 2.0 }

/-- `PROFILES.get(risk_tolerance, PROFILES["balanced"])`: dictionary lookup with
the balanced profile as the silent default. -/
def resolveProfile (risk_tolerance : String) : RiskProfile :=
  if risk_tolerance = "conservative" then conservativeProfile
  else if risk_tolerance = "balanced" then balancedProfile
  else if risk_tolerance = "aggressive" then aggressiveProfile
  else balancedProfile

/-- `models.ScreenResult`.  The `metrics` dict is modelled as an association
list in the source's insertion order. -/
structure ScreenResult where
  ticker : String
  name : String
  score : ℤ
  rating : String
  category : String
  metrics : List (String × Option ℚ)
  reasons : List ReasonCode

/-- `_missing_fields`: names of absent required fields, in the source's
dictionary order. -/
def missing_fields (f : Fundamentals) : List String :=
  ([("pe_ratio", f.pe_ratio), ("revenue_cagr_5y", f.revenue_cagr_5y),
    ("eps_growth_5y", f.eps_growth_5y), ("debt_to_equity", f.debt_to_equity),
    ("interest_coverage", f.interest_coverage), ("current_ratio", f.current_ratio),
    ("fcf_margin", f.fcf_margin)].filter (fun nv => nv.2 = none)).map (fun nv => nv.1)

/-- `_combined_growth`: mean of the present values among revenue CAGR and EPS
growth; `none` when both are absent. -/
def combined_growth (f : Fundamentals) : Option ℚ :=
  let growth_values := ([f.revenue_cagr_5y, f.eps_growth_5y].filterMap id)
  if growth_values = [] then none
  else some (growth_values.sum / growth_values.length)

/-- `_peg_ratio`: P/E divided by combined growth, guarded. -/
def peg_ratio (f : Fundamentals) : Option ℚ :=
  match f.pe_ratio, combined_growth f with
  | none, _ => none
  | _, none => none
  | some pe, some growth => if growth ≤ 0 then none else some (pe / growth)

/-- Python's `round` on an exact rational: nearest integer, ties to even. -/
def roundEven (q : ℚ) : ℤ :=
  if q - ⌊q⌋ < 1/2 then ⌊q⌋
  else if 1/2 < q - ⌊q⌋ then ⌊q⌋ + 1
  else if ⌊q⌋ % 2 = 0 then ⌊q⌋ else ⌊q⌋ + 1

/-- `_score_value`.  The source function reads only the PEG ratio and config
(its `fundamentals` parameter is unused); it returns the value-dimension score
and the reasons it appends, in order. -/
def score_value (peg : Option ℚ) (config : ScoringConfig) : ℚ × List ReasonCode :=
  match peg with
  | none => (0, [⟨"warning", "PEG_MISSING", none, none⟩])
  | some p =>
    if p ≤ config.peg_attractive then
      (config.value_weight, [⟨"positive", "PEG_ATTRACTIVE", some p, some config.peg_attractive⟩])
    else if p ≤ config.peg_fair then
      (config.value_weight * 0.8, [⟨"positive", "PEG_FAIR", some p, some config.peg_fair⟩])
    else if p ≤ config.peg_rich then
      (config.value_weight * 0.55, [⟨"warning", "PEG_RICH", some p, some config.peg_rich⟩])
    else
      (config.value_weight * 0.25, [⟨"negative", "PEG_EXPENSIVE", some p, some config.peg_rich⟩])

/-- `_score_growth`: tiered scoring of the combined growth rate. -/
def score_growth (f : Fundamentals) (profile : RiskProfile) (config : ScoringConfig) :
    ℚ × List ReasonCode :=
  match combined_growth f with
  | none => (0, [⟨"warning", "GROWTH_MISSING", none, none⟩])
  | some growth =>
    if growth ≥ config.growth_strong then
      (config.growth_weight, [⟨"positive", "GROWTH_STRONG", some growth, some config.growth_strong⟩])
    else if growth ≥ config.growth_healthy then
      (config.growth_weight * 0.8,
        [⟨"positive", "GROWTH_HEALTHY", some growth, some config.growth_healthy⟩])
    else if growth ≥ config.growth_moderate then
      (config.growth_weight * 0.6,
        [⟨"warning", "GROWTH_MODERATE", some growth, some config.growth_moderate⟩])
    else if growth ≥ profile.growth_floor then
      (config.growth_weight * 0.32,
        [⟨"warning", "GROWTH_LOW", some growth, some profile.growth_floor⟩])
    else
      (config.growth_weight * 0.08,
        [⟨"negative", "GROWTH_WEAK", some growth, some profile.growth_floor⟩])

/-- The operating-margin block of `_score_quality`: the score-list entries and
reasons it contributes. -/
def qualityOpPart (f : Fundamentals) (config : ScoringConfig) : List ℚ × List ReasonCode :=
  match f.operating_margin with
  | none => ([], [])
  | some m =>
    if m ≥ config.op_margin_strong then
      ([config.quality_weight * 0.4], [⟨"positive", "MARGIN_STRONG", some m, some config.op_margin_strong⟩])
    else if m ≥ config.op_margin_ok then
      ([config.quality_weight * 0.28], [⟨"warning", "MARGIN_OK", some m, some config.op_margin_ok⟩])
    else
      ([config.quality_weight * 0.16], [⟨"warning", "MARGIN_THIN", some m, some config.op_margin_ok⟩])

/-- The FCF-margin block of `_score_quality`. -/
def qualityFcfPart (f : Fundamentals) (config : ScoringConfig) : List ℚ × List ReasonCode :=
  match f.fcf_margin with
  | none => ([], [])
  | some m =>
    if m ≥ config.fcf_margin_strong then
      ([config.quality_weight * 0.32], [⟨"positive", "FCF_STRONG", some m, some config.fcf_margin_strong⟩])
    else if m ≥ config.fcf_margin_ok then
      ([config.quality_weight * 0.2], [⟨"warning", "FCF_OK", some m, some config.fcf_margin_ok⟩])
    else
      ([config.quality_weight * 0.08], [⟨"warning", "FCF_THIN", some m, some config.fcf_margin_ok⟩])

/-- The ROE block of `_score_quality`. -/
def qualityRoePart (f : Fundamentals) (config : ScoringConfig) : List ℚ × List ReasonCode :=
  match f.roe with
  | none => ([], [])
  | some m =>
    if m ≥ config.roe_strong then
      ([config.quality_weight * 0.28], [⟨"positive", "ROE_STRONG", some m, some config.roe_strong⟩])
    else if m ≥ config.roe_ok then
      ([config.quality_weight * 0.2], [⟨"warning", "ROE_OK", some m, some config.roe_ok⟩])
    else
      ([config.quality_weight * 0.08], [⟨"warning", "ROE_WEAK", some m, some config.roe_ok⟩])

/-- `_score_quality`: sum of the present sub-metric contributions, capped at
the quality weight; `0` when every sub-metric is absent. -/
def score_quality (f : Fundamentals) (config : ScoringConfig) : ℚ × List ReasonCode :=
  let op := qualityOpPart f config
  let fcf := qualityFcfPart f config
  let roe := qualityRoePart f config
  let scores := op.1 ++ fcf.1 ++ roe.1
  let reasons := op.2 ++ fcf.2 ++ roe.2
  if scores = [] then (0, reasons)
  else (min scores.sum config.quality_weight, reasons)

/-- The debt/equity block of `_score_balance`. -/
def balanceDebtPart (f : Fundamentals) (profile : RiskProfile) (config : ScoringConfig) :
    ℚ × List ReasonCode :=
  match f.debt_to_equity with
  | none => (0, [])
  | some d =>
    if d ≤ config.debt_light then
      (config.balance_weight * 0.3, [⟨"positive", "DEBT_LIGHT", some d, some config.debt_light⟩])
    else if d ≤ profile.max_debt_to_equity then
      (config.balance_weight * 0.2,
        [⟨"warning", "DEBT_MANAGEABLE", some d, some profile.max_debt_to_equity⟩])
    else (0, [])

/-- The net-debt/EBITDA block of `_score_balance`. -/
def balanceNetDebtPart (f : Fundamentals) (config : ScoringConfig) : ℚ × List ReasonCode :=
  match f.net_debt_to_ebitda with
  | none => (0, [])
  | some nd =>
    if nd ≤ config.net_debt_low then
      (config.balance_weight * 0.3, [⟨"positive", "NET_DEBT_LOW", some nd, some config.net_debt_low⟩])
    else if nd ≤ config.net_debt_ok then
      (config.balance_weight * 0.2, [⟨"warning", "NET_DEBT_OK", some nd, some config.net_debt_ok⟩])
    else (0, [⟨"negative", "NET_DEBT_HIGH", some nd, some config.net_debt_ok⟩])

/-- The interest-coverage block of `_score_balance`. -/
def balanceCoveragePart (f : Fundamentals) (profile : RiskProfile) (config : ScoringConfig) :
    ℚ × List ReasonCode :=
  match f.interest_coverage with
  | none => (0, [])
  | some c =>
    if c ≥ config.interest_strong then
      (config.balance_weight * 0.25,
        [⟨"positive", "COVERAGE_STRONG", some c, some config.interest_strong⟩])
    else if c ≥ profile.min_interest_coverage then
      (config.balance_weight * 0.15,
        [⟨"warning", "COVERAGE_OK", some c, some profile.min_interest_coverage⟩])
    else (0, [])

/-- The current-ratio block of `_score_balance`. -/
def balanceCurrentPart (f : Fundamentals) (profile : RiskProfile) (config : ScoringConfig) :
    ℚ × List ReasonCode :=
  match f.current_ratio with
  | none => (0, [])
  | some c =>
    if c ≥ config.current_strong then
      (config.balance_weight * 0.15,
        [⟨"positive", "CURRENT_STRONG", some c, some config.current_strong⟩])
    else if c ≥ profile.min_current_ratio then
      (config.balance_weight * 0.1,
        [⟨"warning", "CURRENT_OK", some c, some profile.min_current_ratio⟩])
    else (0, [])

/-- `_score_balance`: accumulated partial credit, capped at the balance weight. -/
def score_balance (f : Fundamentals) (profile : RiskProfile) (config : ScoringConfig) :
    ℚ × List ReasonCode :=
  let d := balanceDebtPart f profile config
  let nd := balanceNetDebtPart f config
  let c := balanceCoveragePart f profile config
  let cr := balanceCurrentPart f profile config
  (min (d.1 + nd.1 + c.1 + cr.1) config.balance_weight, d.2 ++ nd.2 ++ c.2 ++ cr.2)

/-- `_rating_for_score`. -/
def rating_for_score (score : ℤ) (hard_fail : Bool) : String :=
  if hard_fail then "Fail"
  else if score ≥ 80 then "Strong"
  else if score ≥ 60 then "Watch"
  else "Caution"

/-- `_category_for_fundamentals`. -/
def category_for_fundamentals (f : Fundamentals) : String :=
  match combined_growth f with
  | none => "unknown"
  | some growth =>
    if growth ≥ 15 then "fast grower"
    else if growth ≥ 8 then "stalwart"
    else if growth ≥ 3 then "slow grower"
    else if growth < 0 then "turnaround"
    else match f.pe_ratio with
      | some pe => if pe ≤ 12 then "asset play" else "slow grower"
      | none => "slow grower"

/-- The debt-ceiling hard-fail gate of `_score_one`
(`debt_to_equity` present and above the profile ceiling). -/
def gateDebtHigh (f : Fundamentals) (profile : RiskProfile) : Bool :=
  match f.debt_to_equity with
  | none => false
  | some d => decide (profile.max_debt_to_equity < d)

/-- The interest-coverage hard-fail gate of `_score_one`. -/
def gateCoverageLow (f : Fundamentals) (profile : RiskProfile) : Bool :=
  match f.interest_coverage with
  | none => false
  | some c => decide (c < profile.min_interest_coverage)

/-- The soft current-ratio check of `_score_one` (warning only). -/
def gateCurrentLow (f : Fundamentals) (profile : RiskProfile) : Bool :=
  match f.current_ratio with
  | none => false
  | some c => decide (c < profile.min_current_ratio)

/-- The FCF-margin hard-fail gate of `_score_one`. -/
def gateFcfWeak (f : Fundamentals) (profile : RiskProfile) : Bool :=
  match f.fcf_margin with
  | none => false
  | some m => decide (m < profile.min_fcf_margin)

/-- The `hard_fail` flag computed by `_score_one`: any missing required field,
or the debt, coverage or FCF gate firing (the current-ratio check never sets it). -/
def hardFail (f : Fundamentals) (profile : RiskProfile) : Bool :=
  !(missing_fields f).isEmpty || gateDebtHigh f profile || gateCoverageLow f profile
    || gateFcfWeak f profile

/-- `_score_one`: gate checks, the four dimension scorers, aggregation,
rating and category, with reasons concatenated in emission order. -/
def score_one (f : Fundamentals) (profile : RiskProfile) (config : ScoringConfig) :
    ScreenResult :=
  let gateReasons : List ReasonCode :=
    (if (missing_fields f).isEmpty then [] else [⟨"negative", "MISSING_DATA", none, none⟩])
    ++ (if gateDebtHigh f profile then [⟨"negative", "DEBT_HIGH", none, none⟩] else [])
    ++ (if gateCoverageLow f profile then [⟨"negative", "INTEREST_COVERAGE_LOW", none, none⟩] else [])
    ++ (if gateCurrentLow f profile then [⟨"warning", "CURRENT_RATIO_LOW", none, none⟩] else [])
    ++ (if gateFcfWeak f profile then [⟨"negative", "FCF_WEAK", none, none⟩] else [])
  let peg := peg_ratio f
  let v := score_value peg config
  let g := score_growth f profile config
  let q := score_quality f config
  let b := score_balance f profile config
  let raw_score := v.1 + g.1 + q.1 + b.1
  let score : ℤ := if hardFail f profile then 0 else roundEven raw_score
  { ticker := f.ticker
    name := f.name
    score := score
    rating := rating_for_score score (hardFail f profile)
    category := category_for_fundamentals f
    metrics :=
      [("pe_ratio", f.pe_ratio), ("peg_ratio", peg), ("revenue_cagr_5y", f.revenue_cagr_5y),
       ("eps_growth_5y", f.eps_growth_5y), ("operating_margin", f.operating_margin),
       ("fcf_margin", f.fcf_margin), ("roe", f.roe), ("debt_to_equity", f.debt_to_equity),
       ("net_debt_to_ebitda", f.net_debt_to_ebitda), ("interest_coverage", f.interest_coverage),
       ("current_ratio", f.current_ratio)]
    reasons := gateReasons ++ v.2 ++ g.2 ++ q.2 ++ b.2 }

/-- The descending-score comparison used by the ranker
(`sorted(..., key=score, reverse=True)` keeps `a` before `b` when
`a.score ≥ b.score`). -/
def byScoreDesc (a b : ScreenResult) : Prop := b.score ≤ a.score

instance : DecidableRel byScoreDesc := fun a b => inferInstanceAs (Decidable (b.score ≤ a.score))

instance : IsTotal ScreenResult byScoreDesc := ⟨fun a b => le_total b.score a.score⟩

instance : IsTrans ScreenResult byScoreDesc :=
  ⟨fun _ _ _ h1 h2 => le_trans h2 h1⟩

/-- `screen_fundamentals`: resolve the profile, score each snapshot, stable
sort by score descending (Python's `sorted` is stable; `reverse=True` keeps
equal-key elements in input order). -/
def screen_fundamentals (fundamentals : List Fundamentals) (risk_tolerance : String)
    (config : ScoringConfig) : List ScreenResult :=
  let profile := resolveProfile risk_tolerance
  let results := fundamentals.map (fun item => score_one item profile config)
  List.insertionSort byScoreDesc results

/-! ### Concrete sample snapshots used as test inputs -/

/-- A snapshot with PEG exactly 0.8, combined growth exactly 25, debt/equity
0.5, current ratio 1.5, all seven required fields present, but weak FCF margin,
borderline interest coverage and no quality metrics beyond FCF. -/
def fA : Fundamentals :=
  { ticker := "A", name := "A", price := none, market_cap := none,
    pe_ratio := some 20, revenue_cagr_5y := some 25, eps_growth_5y := some 25,
    operating_margin := none, fcf_margin := some 1, roe := none,
    debt_to_equity := some 0.5, net_debt_to_ebitda := none,
    interest_coverage := some 3, current_ratio := some 1.5,
    shares_outstanding := none, free_cash_flow := none }

/-- A strong snapshot: PEG 0.8, combined growth 25, light debt, strong
coverage, strong margins. -/
def fB : Fundamentals :=
  { ticker := "B", name := "B", price := none, market_cap := none,
    pe_ratio := some 20, revenue_cagr_5y := some 25, eps_growth_5y := some 25,
    operating_margin := some 25, fcf_margin := some 20, roe := none,
    debt_to_equity := some 0.4, net_debt_to_ebitda := none,
    interest_coverage := some 10, current_ratio := some 2,
    shares_outstanding := none, free_cash_flow := none }

/-- A snapshot that passes every hard gate but whose current ratio 0.5 is
below every profile's liquidity floor. -/
def fC : Fundamentals :=
  { ticker := "C", name := "C", price := none, market_cap := none,
    pe_ratio := some 20, revenue_cagr_5y := some 25, eps_growth_5y := some 25,
    operating_margin := none, fcf_margin := some 20, roe := none,
    debt_to_equity := some 0.5, net_debt_to_ebitda := none,
    interest_coverage := some 10, current_ratio := some 0.5,
    shares_outstanding := none, free_cash_flow := none }

/-- A snapshot with a negative P/E and positive growth. -/
def fD : Fundamentals :=
  { ticker := "D", name := "D", price := none, market_cap := none,
    pe_ratio := some (-10), revenue_cagr_5y := some 5, eps_growth_5y := some 5,
    operating_margin := none, fcf_margin := none, roe := none,
    debt_to_equity := none, net_debt_to_ebitda := none,
    interest_coverage := none, current_ratio := none,
    shares_outstanding := none, free_cash_flow := none }

/-- A snapshot with every numeric metric absent. -/
def fQnone : Fundamentals :=
  { ticker := "Q", name := "Q", price := none, market_cap := none,
    pe_ratio := none, revenue_cagr_5y := none, eps_growth_5y := none,
    operating_margin := none, fcf_margin := none, roe := none,
    debt_to_equity := none, net_debt_to_ebitda := none,
    interest_coverage := none, current_ratio := none,
    shares_outstanding := none, free_cash_flow := none }

/-- The default configuration with the quality weight overridden to a
negative number (the dataclass accepts any float). -/
def cfgNegQuality : ScoringConfig := { DEFAULT_CONFIG with quality_weight := -1 }

/-! ### Helper lemmas -/

theorem roundEven_intCast (n : ℤ) : roundEven (n : ℚ) = n := by
  simp [roundEven]

theorem le_roundEven (n : ℤ) (q : ℚ) (h : (n : ℚ) ≤ q) : n ≤ roundEven q := by
  have hf : n ≤ ⌊q⌋ := Int.le_floor.mpr h
  unfold roundEven
  split_ifs <;> omega

theorem roundEven_le (n : ℤ) (q : ℚ) (h : q ≤ (n : ℚ)) : roundEven q ≤ n := by
  have hf : ⌊q⌋ ≤ n := by
    have h1 : (⌊q⌋ : ℚ) ≤ (n : ℚ) := le_trans (Int.floor_le q) h
    exact_mod_cast h1
  have hfl : (⌊q⌋ : ℚ) ≤ q := Int.floor_le q
  unfold roundEven
  split_ifs with h1 h2 h3
  · exact hf
  · have hlt : (⌊q⌋ : ℚ) < (n : ℚ) := by linarith
    have : ⌊q⌋ < n := by exact_mod_cast hlt
    omega
  · exact hf
  · have hge : (1 : ℚ)/2 ≤ q - ⌊q⌋ := le_of_not_lt h1
    have hlt : (⌊q⌋ : ℚ) < (n : ℚ) := by linarith
    have : ⌊q⌋ < n := by exact_mod_cast hlt
    omega

theorem combined_growth_both {f : Fundamentals} {r e : ℚ}
    (hr : f.revenue_cagr_5y = some r) (he : f.eps_growth_5y = some e) :
    combined_growth f = some ((r + e) / 2) := by
  simp [combined_growth, hr, he, List.filterMap]

theorem combined_growth_rev {f : Fundamentals} {r : ℚ}
    (hr : f.revenue_cagr_5y = some r) (he : f.eps_growth_5y = none) :
    combined_growth f = some r := by
  simp [combined_growth, hr, he, List.filterMap]

theorem combined_growth_eps {f : Fundamentals} {e : ℚ}
    (hr : f.revenue_cagr_5y = none) (he : f.eps_growth_5y = some e) :
    combined_growth f = some e := by
  simp [combined_growth, hr, he, List.filterMap]

theorem combined_growth_none {f : Fundamentals}
    (hr : f.revenue_cagr_5y = none) (he : f.eps_growth_5y = none) :
    combined_growth f = none := by
  simp [combined_growth, hr, he, List.filterMap]

theorem combined_growth_isSome {f : Fundamentals}
    (h : f.revenue_cagr_5y ≠ none ∨ f.eps_growth_5y ≠ none) :
    ∃ g, combined_growth f = some g := by
  rcases hr : f.revenue_cagr_5y with _ | r <;> rcases he : f.eps_growth_5y with _ | e
  · rw [hr, he] at h
    simp at h
  · exact ⟨e, combined_growth_eps hr he⟩
  · exact ⟨r, combined_growth_rev hr he⟩
  · exact ⟨(r + e) / 2, combined_growth_both hr he⟩

theorem missing_fields_eq_nil_iff (f : Fundamentals) :
    missing_fields f = [] ↔
      f.pe_ratio ≠ none ∧ f.revenue_cagr_5y ≠ none ∧ f.eps_growth_5y ≠ none ∧
      f.debt_to_equity ≠ none ∧ f.interest_coverage ≠ none ∧ f.current_ratio ≠ none ∧
      f.fcf_margin ≠ none := by
  unfold missing_fields
  simp [List.filter_eq_nil_iff]

theorem gateDebtHigh_eq_true_iff (f : Fundamentals) (profile : RiskProfile) :
    gateDebtHigh f profile = true ↔
      ∃ d, f.debt_to_equity = some d ∧ profile.max_debt_to_equity < d := by
  unfold gateDebtHigh
  rcases hd : f.debt_to_equity with _ | d <;> simp

theorem gateCoverageLow_eq_true_iff (f : Fundamentals) (profile : RiskProfile) :
    gateCoverageLow f profile = true ↔
      ∃ c, f.interest_coverage = some c ∧ c < profile.min_interest_coverage := by
  unfold gateCoverageLow
  rcases hc : f.interest_coverage with _ | c <;> simp

theorem gateCurrentLow_eq_true_iff (f : Fundamentals) (profile : RiskProfile) :
    gateCurrentLow f profile = true ↔
      ∃ c, f.current_ratio = some c ∧ c < profile.min_current_ratio := by
  unfold gateCurrentLow
  rcases hc : f.current_ratio with _ | c <;> simp

theorem gateFcfWeak_eq_true_iff (f : Fundamentals) (profile : RiskProfile) :
    gateFcfWeak f profile = true ↔
      ∃ m, f.fcf_margin = some m ∧ m < profile.min_fcf_margin := by
  unfold gateFcfWeak
  rcases hm : f.fcf_margin with _ | m <;> simp

theorem hardFail_eq_true_iff (f : Fundamentals) (profile : RiskProfile) :
    hardFail f profile = true ↔
      missing_fields f ≠ [] ∨
      (∃ d, f.debt_to_equity = some d ∧ profile.max_debt_to_equity < d) ∨
      (∃ c, f.interest_coverage = some c ∧ c < profile.min_interest_coverage) ∨
      (∃ m, f.fcf_margin = some m ∧ m < profile.min_fcf_margin) := by
  unfold hardFail
  by_cases hm : missing_fields f = [] <;>
    simp [hm, gateDebtHigh_eq_true_iff, gateCoverageLow_eq_true_iff, gateFcfWeak_eq_true_iff,
      or_assoc]

theorem score_one_score_eq (f : Fundamentals) (profile : RiskProfile) (config : ScoringConfig) :
    (score_one f profile config).score =
      if hardFail f profile then 0
      else roundEven ((score_value (peg_ratio f) config).1
        + (score_growth f profile config).1 + (score_quality f config).1
        + (score_balance f profile config).1) := rfl

theorem score_one_rating_eq (f : Fundamentals) (profile : RiskProfile) (config : ScoringConfig) :
    (score_one f profile config).rating =
      rating_for_score (score_one f profile config).score (hardFail f profile) := rfl

theorem rating_for_score_ne_fail (s : ℤ) : rating_for_score s false ≠ "Fail" := by
  unfold rating_for_score
  simp only [Bool.false_eq_true, if_false]
  split_ifs <;> decide

theorem score_value_nonneg (peg : Option ℚ) (config : ScoringConfig)
    (h : 0 ≤ config.value_weight) : 0 ≤ (score_value peg config).1 := by
  unfold score_value
  rcases peg with _ | p
  · simp
  · dsimp only
    split_ifs <;> simp <;> nlinarith

theorem score_value_le (peg : Option ℚ) (config : ScoringConfig)
    (h : 0 ≤ config.value_weight) : (score_value peg config).1 ≤ config.value_weight := by
  unfold score_value
  rcases peg with _ | p
  · simpa using h
  · dsimp only
    split_ifs <;> simp <;> nlinarith

theorem score_growth_nonneg (f : Fundamentals) (profile : RiskProfile) (config : ScoringConfig)
    (h : 0 ≤ config.growth_weight) : 0 ≤ (score_growth f profile config).1 := by
  unfold score_growth
  rcases combined_growth f with _ | g
  · simp
  · dsimp only
    split_ifs <;> simp <;> nlinarith

theorem score_growth_le (f : Fundamentals) (profile : RiskProfile) (config : ScoringConfig)
    (h : 0 ≤ config.growth_weight) : (score_growth f profile config).1 ≤ config.growth_weight := by
  unfold score_growth
  rcases combined_growth f with _ | g
  · simpa using h
  · dsimp only
    split_ifs <;> simp <;> nlinarith

theorem qualityOpPart_sum_nonneg (f : Fundamentals) (config : ScoringConfig)
    (h : 0 ≤ config.quality_weight) : 0 ≤ (qualityOpPart f config).1.sum := by
  unfold qualityOpPart
  rcases f.operating_margin with _ | m
  · simp
  · dsimp only
    split_ifs <;> simp <;> nlinarith

theorem qualityFcfPart_sum_nonneg (f : Fundamentals) (config : ScoringConfig)
    (h : 0 ≤ config.quality_weight) : 0 ≤ (qualityFcfPart f config).1.sum := by
  unfold qualityFcfPart
  rcases f.fcf_margin with _ | m
  · simp
  · dsimp only
    split_ifs <;> simp <;> nlinarith

theorem qualityRoePart_sum_nonneg (f : Fundamentals) (config : ScoringConfig)
    (h : 0 ≤ config.quality_weight) : 0 ≤ (qualityRoePart f config).1.sum := by
  unfold qualityRoePart
  rcases f.roe with _ | m
  · simp
  · dsimp only
    split_ifs <;> simp <;> nlinarith

theorem score_quality_nonneg (f : Fundamentals) (config : ScoringConfig)
    (h : 0 ≤ config.quality_weight) : 0 ≤ (score_quality f config).1 := by
  unfold score_quality
  dsimp only
  have h1 := qualityOpPart_sum_nonneg f config h
  have h2 := qualityFcfPart_sum_nonneg f config h
  have h3 := qualityRoePart_sum_nonneg f config h
  split_ifs with hs
  · simp
  · refine le_min ?_ h
    rw [List.sum_append, List.sum_append]
    linarith

theorem score_quality_le (f : Fundamentals) (config : ScoringConfig)
    (h : 0 ≤ config.quality_weight) : (score_quality f config).1 ≤ config.quality_weight := by
  unfold score_quality
  dsimp only
  split_ifs with hs
  · simpa using h
  · exact min_le_right _ _

theorem balanceDebtPart_nonneg (f : Fundamentals) (profile : RiskProfile)
    (config : ScoringConfig) (h : 0 ≤ config.balance_weight) :
    0 ≤ (balanceDebtPart f profile config).1 := by
  unfold balanceDebtPart
  rcases f.debt_to_equity with _ | d
  · simp
  · dsimp only
    split_ifs <;> simp <;> nlinarith

theorem balanceNetDebtPart_nonneg (f : Fundamentals) (config : ScoringConfig)
    (h : 0 ≤ config.balance_weight) : 0 ≤ (balanceNetDebtPart f config).1 := by
  unfold balanceNetDebtPart
  rcases f.net_debt_to_ebitda with _ | nd
  · simp
  · dsimp only
    split_ifs <;> simp <;> nlinarith

theorem balanceCoveragePart_nonneg (f : Fundamentals) (profile : RiskProfile)
    (config : ScoringConfig) (h : 0 ≤ config.balance_weight) :
    0 ≤ (balanceCoveragePart f profile config).1 := by
  unfold balanceCoveragePart
  rcases f.interest_coverage with _ | c
  · simp
  · dsimp only
    split_ifs <;> simp <;> nlinarith

theorem balanceCurrentPart_nonneg (f : Fundamentals) (profile : RiskProfile)
    (config : ScoringConfig) (h : 0 ≤ config.balance_weight) :
    0 ≤ (balanceCurrentPart f profile config).1 := by
  unfold balanceCurrentPart
  rcases f.current_ratio with _ | c
  · simp
  · dsimp only
    split_ifs <;> simp <;> nlinarith

theorem score_balance_nonneg (f : Fundamentals) (profile : RiskProfile) (config : ScoringConfig)
    (h : 0 ≤ config.balance_weight) : 0 ≤ (score_balance f profile config).1 := by
  unfold score_balance
  dsimp only
  have h1 := balanceDebtPart_nonneg f profile config h
  have h2 := balanceNetDebtPart_nonneg f config h
  have h3 := balanceCoveragePart_nonneg f profile config h
  have h4 := balanceCurrentPart_nonneg f profile config h
  exact le_min (by linarith) h

theorem score_balance_le (f : Fundamentals) (profile : RiskProfile) (config : ScoringConfig) :
    (score_balance f profile config).1 ≤ config.balance_weight :=
  min_le_right _ _

theorem score_growth_ge_two (f : Fundamentals) (profile : RiskProfile) {g : ℚ}
    (hg : combined_growth f = some g) : 2 ≤ (score_growth f profile DEFAULT_CONFIG).1 := by
  rw [score_growth.eq_def, hg]
  dsimp only
  split_ifs <;> norm_num [DEFAULT_CONFIG]

theorem score_quality_ge_two (f : Fundamentals) {m : ℚ} (hm : f.fcf_margin = some m) :
    2 ≤ (score_quality f DEFAULT_CONFIG).1 := by
  have hfcf : 2 ≤ (qualityFcfPart f DEFAULT_CONFIG).1.sum ∧
      (qualityFcfPart f DEFAULT_CONFIG).1 ≠ [] := by
    rw [qualityFcfPart.eq_def, hm]
    dsimp only
    split_ifs <;> constructor <;> norm_num [DEFAULT_CONFIG]
  have hop := qualityOpPart_sum_nonneg f DEFAULT_CONFIG (by norm_num [DEFAULT_CONFIG])
  have hroe := qualityRoePart_sum_nonneg f DEFAULT_CONFIG (by norm_num [DEFAULT_CONFIG])
  unfold score_quality
  dsimp only
  rw [if_neg (by simp [hfcf.2])]
  refine le_min ?_ (by norm_num [DEFAULT_CONFIG])
  rw [List.sum_append, List.sum_append]
  linarith [hfcf.1]

theorem score_balance_ge_seven (f : Fundamentals) (profile : RiskProfile) {d c : ℚ}
    (hd : f.debt_to_equity = some d) (hdle : d ≤ profile.max_debt_to_equity)
    (hc : f.interest_coverage = some c) (hcge : profile.min_interest_coverage ≤ c) :
    7 ≤ (score_balance f profile DEFAULT_CONFIG).1 := by
  have h1 : 4 ≤ (balanceDebtPart f profile DEFAULT_CONFIG).1 := by
    rw [balanceDebtPart.eq_def, hd]
    dsimp only
    split_ifs with ha
    · norm_num [DEFAULT_CONFIG]
    · norm_num [DEFAULT_CONFIG]
  have h2 : 3 ≤ (balanceCoveragePart f profile DEFAULT_CONFIG).1 := by
    rw [balanceCoveragePart.eq_def, hc]
    dsimp only
    split_ifs with ha
    · norm_num [DEFAULT_CONFIG]
    · norm_num [DEFAULT_CONFIG]
  have h3 := balanceNetDebtPart_nonneg f DEFAULT_CONFIG (by norm_num [DEFAULT_CONFIG])
  have h4 := balanceCurrentPart_nonneg f profile DEFAULT_CONFIG (by norm_num [DEFAULT_CONFIG])
  unfold score_balance
  dsimp only
  exact le_min (by linarith) (by norm_num [DEFAULT_CONFIG])

theorem hardFail_eq_false (f : Fundamentals) (profile : RiskProfile)
    (hmf : missing_fields f = [])
    (hd : gateDebtHigh f profile = false) (hc : gateCoverageLow f profile = false)
    (hfcf : gateFcfWeak f profile = false) : hardFail f profile = false := by
  unfold hardFail
  simp [hmf, hd, hc, hfcf]

theorem score_one_ge_eleven (f : Fundamentals) (profile : RiskProfile)
    (hmf : missing_fields f = [])
    (hd : gateDebtHigh f profile = false) (hc : gateCoverageLow f profile = false)
    (hfcf : gateFcfWeak f profile = false) :
    11 ≤ (score_one f profile DEFAULT_CONFIG).score := by
  obtain ⟨hpe, hrev, heps, hde, hic, hcr, hfm⟩ := (missing_fields_eq_nil_iff f).mp hmf
  obtain ⟨d, hd2⟩ := Option.ne_none_iff_exists'.mp hde
  obtain ⟨ic, hic2⟩ := Option.ne_none_iff_exists'.mp hic
  obtain ⟨fm, hfm2⟩ := Option.ne_none_iff_exists'.mp hfm
  have hdle : d ≤ profile.max_debt_to_equity := by
    have hne : ¬ gateDebtHigh f profile = true := by simp [hd]
    rw [gateDebtHigh_eq_true_iff] at hne
    push_neg at hne
    exact hne d hd2
  have hicge : profile.min_interest_coverage ≤ ic := by
    have hne : ¬ gateCoverageLow f profile = true := by simp [hc]
    rw [gateCoverageLow_eq_true_iff] at hne
    push_neg at hne
    exact hne ic hic2
  obtain ⟨g, hg⟩ := combined_growth_isSome (f := f) (Or.inl hrev)
  have hHF := hardFail_eq_false f profile hmf hd hc hfcf
  rw [score_one_score_eq, hHF]
  simp only [Bool.false_eq_true, if_false]
  have hv := score_value_nonneg (peg_ratio f) DEFAULT_CONFIG (by norm_num [DEFAULT_CONFIG])
  have hg2 := score_growth_ge_two f profile hg
  have hq2 := score_quality_ge_two f hfm2
  have hb7 := score_balance_ge_seven f profile hd2 hdle hic2 hicge
  refine le_roundEven 11 _ ?_
  push_cast
  linarith

theorem filter_orderedInsert (s : ℤ) (a : ScreenResult) (l : List ScreenResult) :
    (List.orderedInsert byScoreDesc a l).filter (fun r => decide (r.score = s)) =
      (a :: l).filter (fun r => decide (r.score = s)) := by
  induction l with
  | nil => rfl
  | cons b t ih =>
    by_cases hab : byScoreDesc a b
    · rw [List.orderedInsert_of_le _ _ hab]
    · have hoi : List.orderedInsert byScoreDesc a (b :: t) =
          b :: List.orderedInsert byScoreDesc a t := by
        simp [List.orderedInsert, hab]
      rw [hoi]
      have hab2 : ¬ b.score ≤ a.score := hab
      by_cases has : a.score = s <;> by_cases hbs : b.score = s
      · exact absurd (le_of_eq (hbs.trans has.symm)) hab2
      · simp [List.filter_cons, has, hbs, ih]
      · simp [List.filter_cons, has, hbs, ih]
      · simp [List.filter_cons, has, hbs, ih]

theorem filter_insertionSort (s : ℤ) (l : List ScreenResult) :
    (List.insertionSort byScoreDesc l).filter (fun r => decide (r.score = s)) =
      l.filter (fun r => decide (r.score = s)) := by
  induction l with
  | nil => rfl
  | cons a t ih =>
    simp only [List.insertionSort]
    rw [filter_orderedInsert]
    simp [List.filter_cons, ih]

theorem score_one_reasons_eq (f : Fundamentals) (profile : RiskProfile)
    (config : ScoringConfig) :
    (score_one f profile config).reasons =
      ((if (missing_fields f).isEmpty then []
          else [⟨"negative", "MISSING_DATA", none, none⟩])
        ++ (if gateDebtHigh f profile then [⟨"negative", "DEBT_HIGH", none, none⟩] else [])
        ++ (if gateCoverageLow f profile then
              [⟨"negative", "INTEREST_COVERAGE_LOW", none, none⟩] else [])
        ++ (if gateCurrentLow f profile then
              [⟨"warning", "CURRENT_RATIO_LOW", none, none⟩] else [])
        ++ (if gateFcfWeak f profile then [⟨"negative", "FCF_WEAK", none, none⟩] else []))
      ++ (score_value (peg_ratio f) config).2 ++ (score_growth f profile config).2
      ++ (score_quality f config).2 ++ (score_balance f profile config).2 := rfl

/-! ### Evaluation of the sample snapshots -/

theorem fA_missing : missing_fields fA = [] := by
  unfold missing_fields
  simp [fA]

theorem fA_growth : combined_growth fA = some 25 := by
  simp [combined_growth, fA, List.filterMap]

theorem fA_peg : peg_ratio fA = some 0.8 := by
  have h1 : fA.pe_ratio = some 20 := rfl
  rw [peg_ratio.eq_def, fA_growth, h1]
  norm_num

theorem fA_gateDebt : gateDebtHigh fA balancedProfile = false := by
  simp [gateDebtHigh, fA, balancedProfile]
  norm_num

theorem fA_gateCoverage : gateCoverageLow fA balancedProfile = false := by
  simp [gateCoverageLow, fA, balancedProfile]
  norm_num

theorem fA_gateFcf : gateFcfWeak fA balancedProfile = false := by
  simp [gateFcfWeak, fA, balancedProfile]
  norm_num

theorem fA_hardFail : hardFail fA balancedProfile = false :=
  hardFail_eq_false fA balancedProfile fA_missing fA_gateDebt fA_gateCoverage fA_gateFcf

theorem fA_value : (score_value (peg_ratio fA) DEFAULT_CONFIG).1 = 30 := by
  rw [fA_peg]
  simp [score_value, DEFAULT_CONFIG]
  norm_num

theorem fA_growthScore : (score_growth fA balancedProfile DEFAULT_CONFIG).1 = 25 := by
  rw [score_growth.eq_def, fA_growth]
  simp [DEFAULT_CONFIG]
  norm_num

theorem fA_quality : (score_quality fA DEFAULT_CONFIG).1 = 2 := by
  simp [score_quality, qualityOpPart, qualityFcfPart, qualityRoePart, fA, DEFAULT_CONFIG]
  norm_num

theorem fA_balance : (score_balance fA balancedProfile DEFAULT_CONFIG).1 = 12 := by
  simp [score_balance, balanceDebtPart, balanceNetDebtPart, balanceCoveragePart,
    balanceCurrentPart, fA, balancedProfile, DEFAULT_CONFIG]
  norm_num

theorem fA_score : (score_one fA balancedProfile DEFAULT_CONFIG).score = 69 := by
  rw [score_one_score_eq, fA_hardFail, fA_value, fA_growthScore, fA_quality, fA_balance]
  have h : (30 : ℚ) + 25 + 2 + 12 = ((69 : ℤ) : ℚ) := by norm_num
  rw [if_neg (by simp), h, roundEven_intCast]

theorem fA_rating : (score_one fA balancedProfile DEFAULT_CONFIG).rating = "Watch" := by
  rw [score_one_rating_eq, fA_hardFail, fA_score]
  unfold rating_for_score
  norm_num

theorem fB_missing : missing_fields fB = [] := by
  unfold missing_fields
  simp [fB]

theorem fB_growth : combined_growth fB = some 25 := by
  simp [combined_growth, fB, List.filterMap]

theorem fB_peg : peg_ratio fB = some 0.8 := by
  have h1 : fB.pe_ratio = some 20 := rfl
  rw [peg_ratio.eq_def, fB_growth, h1]
  norm_num

theorem fC_missing : missing_fields fC = [] := by
  unfold missing_fields
  simp [fC]

theorem fC_gateDebt : gateDebtHigh fC balancedProfile = false := by
  simp [gateDebtHigh, fC, balancedProfile]
  norm_num

theorem fC_gateCoverage : gateCoverageLow fC balancedProfile = false := by
  simp [gateCoverageLow, fC, balancedProfile]
  norm_num

theorem fC_gateFcf : gateFcfWeak fC balancedProfile = false := by
  simp [gateFcfWeak, fC, balancedProfile]
  norm_num

theorem fD_growth : combined_growth fD = some 5 := by
  have h := combined_growth_both (f := fD) (r := 5) (e := 5) rfl rfl
  norm_num at h
  exact h

/-! ### The claims -/

/-- C1: under the default `ScoringConfig`, for every snapshot and every risk
profile, the `ScreenResult` produced by `_score_one` has `score == 0` iff a
hard-fail condition fired (a required field absent, debt/equity above the
ceiling, interest coverage below the floor, or FCF margin below the floor);
every non-hard-failed company gets a strictly positive score. -/
theorem claim_C1 (f : Fundamentals) (profile : RiskProfile) :
    (score_one f profile DEFAULT_CONFIG).score = 0 ↔
      missing_fields f ≠ [] ∨
      (∃ d, f.debt_to_equity = some d ∧ profile.max_debt_to_equity < d) ∨
      (∃ c, f.interest_coverage = some c ∧ c < profile.min_interest_coverage) ∨
      (∃ m, f.fcf_margin = some m ∧ m < profile.min_fcf_margin) := by
  rw [← hardFail_eq_true_iff]
  constructor
  · intro h0
    by_contra hHF
    have hHF2 : hardFail f profile = false := by
      cases hhf : hardFail f profile
      · rfl
      · exact absurd hhf hHF
    have hcomp := hHF2
    unfold hardFail at hcomp
    simp only [Bool.or_eq_false_iff, Bool.not_eq_false', List.isEmpty_iff] at hcomp
    obtain ⟨⟨⟨hmf, hd⟩, hc⟩, hf2⟩ := hcomp
    have h11 := score_one_ge_eleven f profile hmf hd hc hf2
    omega
  · intro hHF
    rw [score_one_score_eq, hHF]
    simp

/-- C2 as frozen is false on the code: `fA` has PEG exactly 0.8, combined
growth exactly 25, debt/equity 0.5, current ratio 1.5 and no missing required
field, yet its balanced-profile default-config result is rating "Watch" with
score 69 (< 80), because the stated preconditions leave the quality and
balance dimensions free to be weak. -/
theorem claim_C2_counterexample :
    peg_ratio fA = some 0.8 ∧ combined_growth fA = some 25 ∧
    fA.debt_to_equity = some 0.5 ∧ fA.current_ratio = some 1.5 ∧
    missing_fields fA = [] ∧
    (score_one fA balancedProfile DEFAULT_CONFIG).score = 69 ∧
    ¬ 80 ≤ (score_one fA balancedProfile DEFAULT_CONFIG).score ∧
    (score_one fA balancedProfile DEFAULT_CONFIG).rating = "Watch" ∧
    (score_one fA balancedProfile DEFAULT_CONFIG).rating ≠ "Strong" :=
  ⟨fA_peg, fA_growth, rfl, rfl, fA_missing, fA_score,
    by rw [fA_score]; norm_num, fA_rating, by rw [fA_rating]; decide⟩

/-- C2 (amended): with the balanced profile and default config, a snapshot
with PEG ≤ 1 (the attractive tier, which includes ≈0.8), combined growth ≥ 20
(the strong tier, which includes ≈25), debt/equity ≤ 0.5, current ratio ≥ 1.5
and no missing required field — and in addition interest coverage ≥ 8,
FCF margin ≥ 15 and operating margin present and ≥ 10 (so that no hard-fail
gate fires and quality/balance contribute enough) — gets rating "Strong" and
score ≥ 80. -/
theorem claim_C2 (f : Fundamentals) (p g d cr ic fm om : ℚ)
    (hp : peg_ratio f = some p) (hp1 : p ≤ 1)
    (hg : combined_growth f = some g) (hg20 : 20 ≤ g)
    (hd : f.debt_to_equity = some d) (hd05 : d ≤ 0.5)
    (hcr : f.current_ratio = some cr) (hcr15 : 1.5 ≤ cr)
    (hmf : missing_fields f = [])
    (hic : f.interest_coverage = some ic) (hic8 : 8 ≤ ic)
    (hfm : f.fcf_margin = some fm) (hfm15 : 15 ≤ fm)
    (hom : f.operating_margin = some om) (hom10 : 10 ≤ om) :
    (score_one f balancedProfile DEFAULT_CONFIG).rating = "Strong" ∧
      80 ≤ (score_one f balancedProfile DEFAULT_CONFIG).score := by
  norm_num at hd05 hcr15
  have hgd : gateDebtHigh f balancedProfile = false := by
    unfold gateDebtHigh
    rw [hd]
    simp only [balancedProfile, decide_eq_false_iff_not, not_lt]
    linarith
  have hgc : gateCoverageLow f balancedProfile = false := by
    unfold gateCoverageLow
    rw [hic]
    simp only [balancedProfile, decide_eq_false_iff_not, not_lt]
    linarith
  have hgf : gateFcfWeak f balancedProfile = false := by
    unfold gateFcfWeak
    rw [hfm]
    simp only [balancedProfile, decide_eq_false_iff_not, not_lt]
    linarith
  have hHF := hardFail_eq_false f balancedProfile hmf hgd hgc hgf
  have hv : (score_value (peg_ratio f) DEFAULT_CONFIG).1 = 30 := by
    rw [hp]
    unfold score_value
    dsimp only
    rw [if_pos (by norm_num [DEFAULT_CONFIG]; linarith)]
    norm_num [DEFAULT_CONFIG]
  have hgr : (score_growth f balancedProfile DEFAULT_CONFIG).1 = 25 := by
    rw [score_growth.eq_def, hg]
    dsimp only
    rw [if_pos (by norm_num [DEFAULT_CONFIG]; linarith)]
    norm_num [DEFAULT_CONFIG]
  have hopPart : 7 ≤ (qualityOpPart f DEFAULT_CONFIG).1.sum := by
    rw [qualityOpPart.eq_def, hom]
    dsimp only
    split_ifs with h1 h2
    · norm_num [DEFAULT_CONFIG]
    · norm_num [DEFAULT_CONFIG]
    · norm_num [DEFAULT_CONFIG] at h2
      linarith
  have hfcfPart : 8 ≤ (qualityFcfPart f DEFAULT_CONFIG).1.sum ∧
      (qualityFcfPart f DEFAULT_CONFIG).1 ≠ [] := by
    rw [qualityFcfPart.eq_def, hfm]
    dsimp only
    split_ifs with h1 h2
    · constructor
      · norm_num [DEFAULT_CONFIG]
      · norm_num
    · norm_num [DEFAULT_CONFIG] at h1
      linarith
    · norm_num [DEFAULT_CONFIG] at h1
      linarith
  have hroe := qualityRoePart_sum_nonneg f DEFAULT_CONFIG (by norm_num [DEFAULT_CONFIG])
  have hq : 15 ≤ (score_quality f DEFAULT_CONFIG).1 := by
    unfold score_quality
    dsimp only
    rw [if_neg (by simp [hfcfPart.2])]
    refine le_min ?_ (by norm_num [DEFAULT_CONFIG])
    rw [List.sum_append, List.sum_append]
    linarith [hfcfPart.1]
  have hb1 : 6 ≤ (balanceDebtPart f balancedProfile DEFAULT_CONFIG).1 := by
    rw [balanceDebtPart.eq_def, hd]
    dsimp only
    split_ifs with h1 h2
    · norm_num [DEFAULT_CONFIG]
    · norm_num [DEFAULT_CONFIG] at h1
      linarith
    · norm_num [DEFAULT_CONFIG] at h1
      linarith
  have hb2 : 5 ≤ (balanceCoveragePart f balancedProfile DEFAULT_CONFIG).1 := by
    rw [balanceCoveragePart.eq_def, hic]
    dsimp only
    split_ifs with h1 h2
    · norm_num [DEFAULT_CONFIG]
    · norm_num [DEFAULT_CONFIG] at h1
      linarith
    · norm_num [DEFAULT_CONFIG] at h1
      linarith
  have hb3 : 3 ≤ (balanceCurrentPart f balancedProfile DEFAULT_CONFIG).1 := by
    rw [balanceCurrentPart.eq_def, hcr]
    dsimp only
    split_ifs with h1 h2
    · norm_num [DEFAULT_CONFIG]
    · norm_num [DEFAULT_CONFIG] at h1
      linarith
    · norm_num [DEFAULT_CONFIG] at h1
      linarith
  have hb4 := balanceNetDebtPart_nonneg f DEFAULT_CONFIG (by norm_num [DEFAULT_CONFIG])
  have hb : 14 ≤ (score_balance f balancedProfile DEFAULT_CONFIG).1 := by
    unfold score_balance
    dsimp only
    exact le_min (by linarith) (by norm_num [DEFAULT_CONFIG])
  have hsc : 80 ≤ (score_one f balancedProfile DEFAULT_CONFIG).score := by
    rw [score_one_score_eq, hHF]
    simp only [Bool.false_eq_true, if_false]
    refine le_roundEven 80 _ ?_
    push_cast
    linarith
  refine ⟨?_, hsc⟩
  rw [score_one_rating_eq, hHF]
  unfold rating_for_score
  simp only [Bool.false_eq_true, if_false]
  rw [if_pos hsc]

/-- Witness for the amended C2 at the concrete snapshot `fB`. -/
theorem claim_C2_witness :
    (score_one fB balancedProfile DEFAULT_CONFIG).rating = "Strong" ∧
      80 ≤ (score_one fB balancedProfile DEFAULT_CONFIG).score :=
  claim_C2 fB 0.8 25 0.4 2 10 20 25 fB_peg (by norm_num) fB_growth (by norm_num)
    rfl (by norm_num) rfl (by norm_num) fB_missing rfl (by norm_num) rfl (by norm_num)
    rfl (by norm_num)

/-- C3: for every snapshot and risk-tolerance key, any `ScoringConfig` with
nonnegative dimension weights summing to 100 yields `0 ≤ score ≤ 100`. -/
theorem claim_C3 (f : Fundamentals) (risk_tolerance : String) (config : ScoringConfig)
    (hv : 0 ≤ config.value_weight) (hg : 0 ≤ config.growth_weight)
    (hq : 0 ≤ config.quality_weight) (hb : 0 ≤ config.balance_weight)
    (hsum : config.value_weight + config.growth_weight + config.quality_weight
      + config.balance_weight = 100) :
    0 ≤ (score_one f (resolveProfile risk_tolerance) config).score ∧
      (score_one f (resolveProfile risk_tolerance) config).score ≤ 100 := by
  rw [score_one_score_eq]
  by_cases hHF : hardFail f (resolveProfile risk_tolerance) = true
  · rw [hHF]
    norm_num
  · have hHF2 : hardFail f (resolveProfile risk_tolerance) = false := by
      cases hhf : hardFail f (resolveProfile risk_tolerance)
      · rfl
      · exact absurd hhf hHF
    rw [hHF2]
    simp only [Bool.false_eq_true, if_false]
    have b1 := score_value_nonneg (peg_ratio f) config hv
    have b2 := score_value_le (peg_ratio f) config hv
    have b3 := score_growth_nonneg f (resolveProfile risk_tolerance) config hg
    have b4 := score_growth_le f (resolveProfile risk_tolerance) config hg
    have b5 := score_quality_nonneg f config hq
    have b6 := score_quality_le f config hq
    have b7 := score_balance_nonneg f (resolveProfile risk_tolerance) config hb
    have b8 := score_balance_le f (resolveProfile risk_tolerance) config
    constructor
    · refine le_roundEven 0 _ ?_
      push_cast
      linarith
    · refine roundEven_le 100 _ ?_
      push_cast
      linarith

/-- Witness for C3 at a concrete snapshot, key and the default config. -/
theorem claim_C3_witness :
    0 ≤ (score_one fA (resolveProfile "balanced") DEFAULT_CONFIG).score ∧
      (score_one fA (resolveProfile "balanced") DEFAULT_CONFIG).score ≤ 100 :=
  claim_C3 fA "balanced" DEFAULT_CONFIG (by norm_num [DEFAULT_CONFIG])
    (by norm_num [DEFAULT_CONFIG]) (by norm_num [DEFAULT_CONFIG])
    (by norm_num [DEFAULT_CONFIG]) (by norm_num [DEFAULT_CONFIG])

/-- C4: a present current ratio below the profile floor appends a
`CURRENT_RATIO_LOW` warning reason, and this check alone never hard-fails:
if no other gate fires, the rating is not "Fail" and the score is not 0
(under the default config). -/
theorem claim_C4 (f : Fundamentals) (profile : RiskProfile) (cr : ℚ)
    (hcr : f.current_ratio = some cr) (hlt : cr < profile.min_current_ratio) :
    (⟨"warning", "CURRENT_RATIO_LOW", none, none⟩ : ReasonCode)
        ∈ (score_one f profile DEFAULT_CONFIG).reasons ∧
      (missing_fields f = [] → gateDebtHigh f profile = false →
        gateCoverageLow f profile = false → gateFcfWeak f profile = false →
        (score_one f profile DEFAULT_CONFIG).rating ≠ "Fail" ∧
          (score_one f profile DEFAULT_CONFIG).score ≠ 0) := by
  have hgcl : gateCurrentLow f profile = true := by
    unfold gateCurrentLow
    rw [hcr]
    simp [hlt]
  constructor
  · rw [score_one_reasons_eq, hgcl]
    simp [List.mem_append]
  · intro hmf hd hc hf2
    refine ⟨?_, ?_⟩
    · rw [score_one_rating_eq, hardFail_eq_false f profile hmf hd hc hf2]
      exact rating_for_score_ne_fail _
    · have h11 := score_one_ge_eleven f profile hmf hd hc hf2
      omega

/-- Witness for C4 at the concrete snapshot `fC` (current ratio 0.5 below the
balanced floor 1.0, all hard gates passing). -/
theorem claim_C4_witness :
    ((⟨"warning", "CURRENT_RATIO_LOW", none, none⟩ : ReasonCode)
        ∈ (score_one fC balancedProfile DEFAULT_CONFIG).reasons) ∧
      ((score_one fC balancedProfile DEFAULT_CONFIG).rating ≠ "Fail" ∧
        (score_one fC balancedProfile DEFAULT_CONFIG).score ≠ 0) := by
  have h := claim_C4 fC balancedProfile 0.5 rfl (by norm_num [fC, balancedProfile])
  exact ⟨h.1, h.2 fC_missing fC_gateDebt fC_gateCoverage fC_gateFcf⟩

/-- C5: `_peg_ratio` is unknown exactly when P/E is unknown, combined growth
is unknown, or combined growth ≤ 0; otherwise it is P/E divided by combined
growth. -/
theorem claim_C5 (f : Fundamentals) :
    (peg_ratio f = none ↔
      f.pe_ratio = none ∨ combined_growth f = none ∨
        ∃ g, combined_growth f = some g ∧ g ≤ 0) ∧
    ∀ pe g, f.pe_ratio = some pe → combined_growth f = some g → 0 < g →
      peg_ratio f = some (pe / g) := by
  constructor
  · rcases hpe : f.pe_ratio with _ | pe <;> rcases hcg : combined_growth f with _ | g <;>
      simp [peg_ratio, hpe, hcg]
  · intro pe g hpe hcg hg
    unfold peg_ratio
    rw [hpe, hcg]
    dsimp only
    rw [if_neg (not_le.mpr hg)]

/-- Witness for C5: the positive branch at the concrete snapshot `fA`. -/
theorem claim_C5_witness : peg_ratio fA = some (20 / 25) :=
  (claim_C5 fA).2 20 25 rfl fA_growth (by norm_num)

/-- C6: `_combined_growth` is the arithmetic mean of the present values among
revenue CAGR and EPS growth (a single present value is returned unchanged),
and is unknown iff both are absent. -/
theorem claim_C6 (f : Fundamentals) :
    (combined_growth f = none ↔ f.revenue_cagr_5y = none ∧ f.eps_growth_5y = none) ∧
    (∀ r e, f.revenue_cagr_5y = some r → f.eps_growth_5y = some e →
      combined_growth f = some ((r + e) / 2)) ∧
    (∀ r, f.revenue_cagr_5y = some r → f.eps_growth_5y = none →
      combined_growth f = some r) ∧
    (∀ e, f.revenue_cagr_5y = none → f.eps_growth_5y = some e →
      combined_growth f = some e) := by
  refine ⟨⟨?_, ?_⟩, fun r e hr he => combined_growth_both hr he,
    fun r hr he => combined_growth_rev hr he, fun e hr he => combined_growth_eps hr he⟩
  · intro h
    rcases hr : f.revenue_cagr_5y with _ | r <;> rcases he : f.eps_growth_5y with _ | e
    · exact ⟨rfl, rfl⟩
    · rw [combined_growth_eps hr he] at h
      simp at h
    · rw [combined_growth_rev hr he] at h
      simp at h
    · rw [combined_growth_both hr he] at h
      simp at h
  · rintro ⟨hr, he⟩
    exact combined_growth_none hr he

/-- Witness for C6: the two-values branch at the concrete snapshot `fD`. -/
theorem claim_C6_witness : combined_growth fD = some ((5 + 5) / 2) :=
  (claim_C6 fD).2.1 5 5 rfl rfl

/-- C7: `screen_fundamentals` returns a permutation of the per-company
results, sorted by score non-increasing, and stably: results with equal
scores keep the relative order of their snapshots in the input batch. -/
theorem claim_C7 (batch : List Fundamentals) (risk_tolerance : String)
    (config : ScoringConfig) :
    (screen_fundamentals batch risk_tolerance config).Perm
        (batch.map (fun f => score_one f (resolveProfile risk_tolerance) config)) ∧
      (screen_fundamentals batch risk_tolerance config).Pairwise
        (fun a b => b.score ≤ a.score) ∧
      ∀ s : ℤ,
        (screen_fundamentals batch risk_tolerance config).filter
            (fun r => decide (r.score = s)) =
          (batch.map (fun f => score_one f (resolveProfile risk_tolerance) config)).filter
            (fun r => decide (r.score = s)) := by
  unfold screen_fundamentals
  exact ⟨List.perm_insertionSort _ _, List.sorted_insertionSort byScoreDesc _,
    fun s => filter_insertionSort s _⟩

/-- C8 as frozen is false on the code: with the quality weight overridden to
-1 (the dataclass accepts any float) and a snapshot with no quality
sub-metric present, `_score_quality` returns 0, which exceeds the configured
quality weight. -/
theorem claim_C8_counterexample :
    ¬ ((score_quality fQnone cfgNegQuality).1 ≤ cfgNegQuality.quality_weight) := by
  have h : (score_quality fQnone cfgNegQuality).1 = 0 := by
    unfold score_quality qualityOpPart qualityFcfPart qualityRoePart
    simp [fQnone]
  rw [h]
  norm_num [cfgNegQuality, DEFAULT_CONFIG]

/-- C8 (amended): for every snapshot and profile, the quality contribution is
at most the quality weight whenever that weight is nonnegative (as in every
sensible config, including the default), and the balance contribution is at
most the balance weight for every config. -/
theorem claim_C8 (f : Fundamentals) (profile : RiskProfile) (config : ScoringConfig) :
    (0 ≤ config.quality_weight → (score_quality f config).1 ≤ config.quality_weight) ∧
      (score_balance f profile config).1 ≤ config.balance_weight :=
  ⟨fun h => score_quality_le f config h, score_balance_le f profile config⟩

/-- Witness for the amended C8 at a concrete snapshot and the default config. -/
theorem claim_C8_witness :
    (score_quality fA DEFAULT_CONFIG).1 ≤ DEFAULT_CONFIG.quality_weight ∧
      (score_balance fA balancedProfile DEFAULT_CONFIG).1 ≤ DEFAULT_CONFIG.balance_weight :=
  ⟨(claim_C8 fA balancedProfile DEFAULT_CONFIG).1 (by norm_num [DEFAULT_CONFIG]),
    (claim_C8 fA balancedProfile DEFAULT_CONFIG).2⟩

/-- C9: any risk-tolerance string other than the three recognized ones
produces exactly the output of "balanced"; the lookup is total, so no error
is signaled. -/
theorem claim_C9 (batch : List Fundamentals) (config : ScoringConfig)
    (risk_tolerance : String)
    (h1 : risk_tolerance ≠ "conservative") (h2 : risk_tolerance ≠ "balanced")
    (h3 : risk_tolerance ≠ "aggressive") :
    screen_fundamentals batch risk_tolerance config =
      screen_fundamentals batch "balanced" config := by
  unfold screen_fundamentals
  have ha : resolveProfile risk_tolerance = balancedProfile := by
    unfold resolveProfile
    rw [if_neg h1, if_neg h2, if_neg h3]
  have hb : resolveProfile "balanced" = balancedProfile := by
    unfold resolveProfile
    rw [if_neg (by decide), if_pos rfl]
  rw [ha, hb]

/-- Witness for C9 at a concrete batch and the unrecognized key "moderate". -/
theorem claim_C9_witness :
    screen_fundamentals [fA] "moderate" DEFAULT_CONFIG =
      screen_fundamentals [fA] "balanced" DEFAULT_CONFIG :=
  claim_C9 [fA] DEFAULT_CONFIG "moderate" (by decide) (by decide) (by decide)

/-- C10: with P/E present and negative and combined growth present and
positive, `_peg_ratio` returns the negative value P/E ÷ growth, and the value
scorer (default config) emits `PEG_ATTRACTIVE` and awards the full value
weight. -/
theorem claim_C10 (f : Fundamentals) (pe g : ℚ)
    (hpe : f.pe_ratio = some pe) (hneg : pe < 0)
    (hg : combined_growth f = some g) (hpos : 0 < g) :
    peg_ratio f = some (pe / g) ∧ pe / g < 0 ∧
      (score_value (peg_ratio f) DEFAULT_CONFIG).1 = DEFAULT_CONFIG.value_weight ∧
      ∃ rc ∈ (score_value (peg_ratio f) DEFAULT_CONFIG).2, rc.code = "PEG_ATTRACTIVE" := by
  have hp : peg_ratio f = some (pe / g) := by
    unfold peg_ratio
    rw [hpe, hg]
    dsimp only
    rw [if_neg (not_le.mpr hpos)]
  have hlt : pe / g < 0 := div_neg_of_neg_of_pos hneg hpos
  have hcase : score_value (peg_ratio f) DEFAULT_CONFIG =
      (DEFAULT_CONFIG.value_weight,
        [⟨"positive", "PEG_ATTRACTIVE", some (pe / g), some DEFAULT_CONFIG.peg_attractive⟩]) := by
    rw [hp]
    unfold score_value
    dsimp only
    rw [if_pos (by norm_num [DEFAULT_CONFIG]; linarith)]
  refine ⟨hp, hlt, by rw [hcase], ?_⟩
  refine ⟨⟨"positive", "PEG_ATTRACTIVE", some (pe / g), some DEFAULT_CONFIG.peg_attractive⟩, ?_, rfl⟩
  rw [hcase]
  simp

/-- Witness for C10 at the concrete snapshot `fD` (P/E −10, growth 5). -/
theorem claim_C10_witness :
    peg_ratio fD = some ((-10) / 5) ∧ ((-10 : ℚ)) / 5 < 0 ∧
      (score_value (peg_ratio fD) DEFAULT_CONFIG).1 = DEFAULT_CONFIG.value_weight ∧
      ∃ rc ∈ (score_value (peg_ratio fD) DEFAULT_CONFIG).2, rc.code = "PEG_ATTRACTIVE" :=
  claim_C10 fD (-10) 5 rfl (by norm_num) fD_growth (by norm_num)

end Screener
